import Mathlib

set_option maxRecDepth 8192

/-!
Shallow embedding of the question-to-intent resolution pipeline of
`gen_model.py` (class `VideoAnalytics`), together with proofs about the
date parsers, the intent validation and the top-level `process_question`
operation.  Python strings are modelled as `List Char` / `String`,
`datetime` values as `Date` triples, exceptions as `Except`, and the
external collaborators (generation service, `json.loads`, SQLite storage,
retrieval service) as components of an `Env` record.
-/

namespace VideoAnalytics

/-! ## Character utilities (Python `str` semantics restricted to the
alphabets that occur in the program: ASCII and Russian Cyrillic). -/

def chr (n : Nat) : Char := Char.ofNat n

/-- single-quote character, used by Python `repr`/f-string diagnostics -/
def sq : String := String.singleton (chr 39)

/-- opening curly brace character -/
def lb : Char := chr 123

/-- closing curly brace character -/
def rb : Char := chr 125

/-- newline character (the one character `.` does not match in `re`) -/
def nl : Char := chr 10

/-- Python `\s` / `str.strip` whitespace (ASCII part) -/
def isSpaceC (c : Char) : Bool :=
  c.toNat = 32 || c.toNat = 9 || c.toNat = 10 || c.toNat = 13 ||
  c.toNat = 11 || c.toNat = 12

/-- `\d` (ASCII decimal digit) -/
def isDigitC (c : Char) : Bool := 48 ≤ c.toNat && c.toNat ≤ 57

/-- `\w` word character: ASCII alphanumerics, underscore, and the Cyrillic
letters used by the locale table -/
def isWordC (c : Char) : Bool :=
  isDigitC c || (65 ≤ c.toNat && c.toNat ≤ 90) || (97 ≤ c.toNat && c.toNat ≤ 122) ||
  c.toNat = 95 || (0x410 ≤ c.toNat && c.toNat ≤ 0x44F) || c.toNat = 0x401 ||
  c.toNat = 0x451

/-- Python `str.lower` on one character (ASCII + Cyrillic) -/
def pyLowerC (c : Char) : Char :=
  if 65 ≤ c.toNat && c.toNat ≤ 90 then chr (c.toNat + 32)
  else if 0x410 ≤ c.toNat && c.toNat ≤ 0x42F then chr (c.toNat + 32)
  else if c.toNat = 0x401 then chr 0x451
  else c

def pyLower (l : List Char) : List Char := l.map pyLowerC

/-- Python `str.strip()` -/
def pyStrip (l : List Char) : List Char :=
  ((l.dropWhile isSpaceC).reverse.dropWhile isSpaceC).reverse

def pyStripS (s : String) : String := String.mk (pyStrip s.data)

def digitVal (c : Char) : Nat := c.toNat - 48

def digitsVal (l : List Char) : Nat := l.foldl (fun a c => a * 10 + digitVal c) 0

/-! ## Calendar dates (`datetime.datetime` restricted to its date part) -/

structure Date where
  year : Nat
  month : Nat
  day : Nat
deriving DecidableEq, Repr

def isLeap (y : Nat) : Bool := y % 4 = 0 && (y % 100 ≠ 0 || y % 400 = 0)

def daysInMonth (y m : Nat) : Nat :=
  if m = 2 then (if isLeap y then 29 else 28)
  else if m = 4 || m = 6 || m = 9 || m = 11 then 30
  else 31

/-- the triple is a real Gregorian calendar date -/
def realDate (y m d : Nat) : Prop :=
  1 ≤ m ∧ m ≤ 12 ∧ 1 ≤ d ∧ d ≤ daysInMonth y m

instance (y m d : Nat) : Decidable (realDate y m d) := by
  unfold realDate; infer_instance

/-- the `datetime(year, month, day)` constructor: raises `ValueError`
(modelled as `none`) unless `MINYEAR = 1 ≤ y ≤ 9999 = MAXYEAR` and the
triple is a real calendar date -/
def mkDate? (y m d : Nat) : Option Date :=
  if 1 ≤ y ∧ y ≤ 9999 ∧ realDate y m d then some ⟨y, m, d⟩ else none

/-- chronological order on dates -/
def dateLe (a b : Date) : Prop :=
  a.year < b.year ∨ (a.year = b.year ∧
    (a.month < b.month ∨ (a.month = b.month ∧ a.day ≤ b.day)))

instance (a b : Date) : Decidable (dateLe a b) := by
  unfold dateLe; infer_instance

/-- step one day back; `none` when leaving the supported range
(before 0001-01-01, where `datetime` arithmetic raises `OverflowError`) -/
def prevDay? : Date → Option Date
  | ⟨y, m, d⟩ =>
    if 2 ≤ d then some ⟨y, m, d - 1⟩
    else if 2 ≤ m then some ⟨y, m - 1, daysInMonth y (m - 1)⟩
    else if 2 ≤ y then some ⟨y - 1, 12, 31⟩
    else none

/-- `date - timedelta(days = n)` -/
def subDays? : Date → Nat → Option Date
  | dt, 0 => some dt
  | dt, n + 1 => (prevDay? dt).bind (fun d => subDays? d n)

/-! ## List helpers (faithful models of the `re` operations used) -/

/-- `re.split` on a character-class run (pattern `[...]+`): pieces between
maximal separator runs, with empty pieces at the ends when the text starts
or ends with separators.  The flag records whether the scan is currently
inside a separator run. -/
def splitRunsGo (p : Char → Bool) : List Char → List Char → Bool → List (List Char)
  | [], cur, inSep => if inSep then [[]] else [cur.reverse]
  | c :: r, cur, inSep =>
    if p c then
      if inSep then splitRunsGo p r [] true
      else cur.reverse :: splitRunsGo p r [] true
    else splitRunsGo p r (c :: cur) false

def splitRuns (p : Char → Bool) (l : List Char) : List (List Char) :=
  splitRunsGo p l [] false

/-- split on every occurrence of a single character (Python
`strptime`-style literal field separation) -/
def splitCharGo (sep : Char) : List Char → List Char → List (List Char)
  | cur, [] => [cur.reverse]
  | cur, c :: r =>
    if c = sep then cur.reverse :: splitCharGo sep [] r
    else splitCharGo sep (c :: cur) r

/-- does `pat` occur as a prefix of `l`? -/
def seqAt : List Char → List Char → Bool
  | _, [] => true
  | [], _ :: _ => false
  | c :: r, p :: ps => c = p && seqAt r ps

/-- index of the first occurrence of `pat` in `l` (`re.search` for a
literal pattern) -/
def subIdxGo (pat : List Char) : List Char → Nat → Option Nat
  | [], i => if seqAt [] pat then some i else none
  | c :: r, i => if seqAt (c :: r) pat then some i else subIdxGo pat r (i + 1)

def subIdx (l pat : List Char) : Option Nat := subIdxGo pat l 0

/-! ## Python `int(str)` -/

def pyIntGo : List Char → Nat → Option Nat
  | [], acc => some acc
  | '_' :: c :: r, acc =>
    if isDigitC c then pyIntGo r (acc * 10 + digitVal c) else none
  | ['_'], _ => none
  | c :: r, acc =>
    if isDigitC c then pyIntGo r (acc * 10 + digitVal c) else none

def pyIntDigits : List Char → Option Nat
  | [] => none
  | c :: r => if isDigitC c then pyIntGo r (digitVal c) else none

/-- Python `int(s)` for a decimal string: optional surrounding
whitespace, optional sign, digits with single underscores between
digits; `ValueError` is `none` -/
def pyInt (l : List Char) : Option Int :=
  match pyStrip l with
  | '+' :: r => (pyIntDigits r).map Int.ofNat
  | '-' :: r => (pyIntDigits r).map (fun n => -(n : Int))
  | r => (pyIntDigits r).map Int.ofNat

/-! ## The locale month table (`VideoAnalytics.MONTH_MAP`) -/

def MONTH_MAP : List (String × Nat) :=
  [("января", 1), ("январь", 1), ("янв", 1),
   ("февраля", 2), ("февраль", 2), ("фев", 2),
   ("марта", 3), ("март", 3), ("мар", 3),
   ("апреля", 4), ("апрель", 4), ("апр", 4),
   ("мая", 5), ("май", 5),
   ("июня", 6), ("июнь", 6), ("июн", 6),
   ("июля", 7), ("июль", 7), ("июл", 7),
   ("августа", 8), ("август", 8), ("авг", 8),
   ("сентября", 9), ("сентябрь", 9), ("сен", 9),
   ("октября", 10), ("октябрь", 10), ("окт", 10),
   ("ноября", 11), ("ноябрь", 11), ("ноя", 11),
   ("декабря", 12), ("декабрь", 12), ("дек", 12)]

def monthFind : List (String × Nat) → List Char → Option Nat
  | [], _ => none
  | p :: r, w => if p.1.data = w then some p.2 else monthFind r w

/-- `str.strip('.')` -/
def stripDots (l : List Char) : List Char :=
  ((l.dropWhile (fun c => c = '.')).reverse.dropWhile (fun c => c = '.')).reverse

/-! ## `VideoAnalytics.parse_date` -/

/-- `re.match(r'\d{4}-\d{2}-\d{2}', s)`: the prefix shape test only -/
def isoShape : List Char → Bool
  | a :: b :: c :: d :: e :: f :: g :: h :: i :: j :: _ =>
    isDigitC a && isDigitC b && isDigitC c && isDigitC d && e = '-' &&
    isDigitC f && isDigitC g && h = '-' && isDigitC i && isDigitC j
  | _ => false

/-- `datetime.strptime(s, '%Y-%m-%d')`: full-string match, `%Y` exactly
four digits, `%m`/`%d` value-checked field patterns, then the `datetime`
constructor -/
def strptimeYmd : List Char → Option Date
  | [a, b, c, d, e, f, g, h, i, j] =>
    if (isDigitC a && isDigitC b && isDigitC c && isDigitC d && e = '-' &&
        isDigitC f && isDigitC g && h = '-' && isDigitC i && isDigitC j) = true then
      if 1 ≤ digitsVal [f, g] ∧ digitsVal [f, g] ≤ 12 ∧
         1 ≤ digitsVal [i, j] ∧ digitsVal [i, j] ≤ 31 then
        mkDate? (digitsVal [a, b, c, d]) (digitsVal [f, g]) (digitsVal [i, j])
      else none
    else none
  | _ => none

/-- branch 1 of `parse_date`: ISO form, failures fall through -/
def isoParse (s : List Char) : Option Date :=
  if isoShape s then strptimeYmd s else none

/-- separators of `re.split(r'[.,\s]+', ...)` -/
def isSepC (c : Char) : Bool := c = '.' || c = ',' || isSpaceC c

/-- part starts with four decimal digits (`re.match(r'\d{4}', part)`) -/
def startsWith4D : List Char → Bool
  | a :: b :: c :: d :: _ => isDigitC a && isDigitC b && isDigitC c && isDigitC d
  | _ => false

/-- branch 2 of `parse_date`: tokenized `"28 ноября 2025"` form.  The year
token is the first part with a four-digit prefix; the two preceding parts
are day and month name; the candidate is kept only when the day is in
`[1, 31]`, the month name resolves and the year is in `[1970, 2100]`;
`int()` failures and `datetime` `ValueError`s fall through. -/
def tokenizedParse (s : List Char) : Option Date :=
  let parts := splitRuns isSepC s
  if 3 ≤ parts.length then
    match parts.findIdx? startsWith4D with
    | some i =>
      if 2 ≤ i then
        match pyInt (parts.getD (i - 2) []), pyInt (parts.getD i []) with
        | some dv, some yv =>
          match monthFind MONTH_MAP (stripDots (parts.getD (i - 1) [])) with
          | some mo =>
            if 1 ≤ dv ∧ dv ≤ 31 ∧ 1970 ≤ yv ∧ yv ≤ 2100 then
              mkDate? yv.toNat mo dv.toNat
            else none
          | none => none
        | _, _ => none
      else none
    | none => none
  else none

/-- one-or-two-digit numeric field of `strptime` with a value range
(`%d` is `3[01]|[12]\d|0[1-9]|[1-9]`, `%m` is `1[0-2]|0[1-9]|[1-9]`) -/
def numField (l : List Char) (lo hi : Nat) : Option Nat :=
  if l ≠ [] ∧ l.length ≤ 2 ∧ l.all isDigitC then
    if lo ≤ digitsVal l ∧ digitsVal l ≤ hi then some (digitsVal l) else none
  else none

/-- branch 3 of `parse_date`: `datetime.strptime(s, '%d.%m.%Y')` -/
def dottedParse (s : List Char) : Option Date :=
  match splitCharGo '.' [] s with
  | [ds, ms, ys] =>
    match numField ds 1 31, numField ms 1 12 with
    | some dv, some mv =>
      if ys.length = 4 ∧ ys.all isDigitC then mkDate? (digitsVal ys) mv dv
      else none
    | _, _ => none
  | _ => none

def parseDateCore (s : List Char) : Option Date :=
  match isoParse s with
  | some d => some d
  | none =>
    match tokenizedParse s with
    | some d => some d
    | none => dottedParse s

/-- normalisation done at the top of `parse_date`:
`date_str.strip().lower()` -/
def dateNorm (l : List Char) : List Char := pyLower (pyStrip l)

def parse_date_l (l : List Char) : Option Date := parseDateCore (dateNorm l)

/-- `VideoAnalytics.parse_date` -/
def parse_date (s : String) : Option Date := parse_date_l s.data

/-! ## `VideoAnalytics.parse_date_range` -/

/-- `re.match(r'(\d{1,2})\s*[-–]\s*(\d{1,2})\s+(\w+)\s+(\d{4})', s)`:
anchored at the start, no end anchor, so trailing text after the fourth
group is ignored.  Returns the two day values, the month-name token and
the year value. -/
def rangeMatch (s : List Char) : Option (Nat × Nat × List Char × Nat) :=
  let p1 := s.span isDigitC
  if p1.1.length = 0 || 2 < p1.1.length then none
  else
    match p1.2.dropWhile isSpaceC with
    | [] => none
    | c :: r3 =>
      if c = '-' || c = chr 0x2013 then
        let p2 := (r3.dropWhile isSpaceC).span isDigitC
        if p2.1.length = 0 || 2 < p2.1.length then none
        else
          let q1 := p2.2.span isSpaceC
          if q1.1.length = 0 then none
          else
            let w := q1.2.span isWordC
            if w.1.length = 0 then none
            else
              let q2 := w.2.span isSpaceC
              if q2.1.length = 0 then none
              else
                let g4 := q2.2.takeWhile isDigitC
                if 4 ≤ g4.length then
                  some (digitsVal p1.1, digitsVal p2.1, w.1, digitsVal (g4.take 4))
                else none
      else none

/-- rule 1 of `parse_date_range` (`"1-5 ноября 2025"`): both ends built
against the shared month and year; a month-lookup failure or a
`ValueError` from either `datetime` call falls through -/
def rangeRule1 (s : List Char) : Option (Date × Date) :=
  match rangeMatch s with
  | some (d1, d2, mn, y) =>
    match monthFind MONTH_MAP (stripDots mn) with
    | some m =>
      match mkDate? y m d1, mkDate? y m d2 with
      | some a, some b => some (a, b)
      | _, _ => none
    | none => none
  | none => none

/-- at the head of the rest of the text, one alternative of the split
pattern `\s+с\s+|\s+по\s+` just after its leading `\s+` run: the
connector word followed by at least one whitespace; returns the text
after the greedy trailing whitespace run -/
def connAt : List Char → Option (List Char)
  | 'с' :: c :: r =>
    if isSpaceC c then some ((c :: r).dropWhile isSpaceC) else none
  | 'п' :: 'о' :: c :: r =>
    if isSpaceC c then some ((c :: r).dropWhile isSpaceC) else none
  | _ => none

/-- scanner state for the model of `re.split(r'\s+с\s+|\s+по\s+', ...)`:
accumulating a piece, or consuming a separator match (its leading
whitespace run, the rest of the connector word, its trailing whitespace
run) -/
inductive ScState where
  | piece (cur : List Char)
  | run1
  | conn1
  | run2

/-- `re.split(r'\s+с\s+|\s+по\s+', s)` worker.  A separator match can only
start at a whitespace run whose text after the run is a connector word
followed by whitespace (`connAt`); that test has the same outcome at
every position inside one run, so the lookahead at each whitespace
character of a piece is exact.  On a match the current piece is emitted
and the scanner consumes the matched span through its trailing
whitespace. -/
def splitConnGo : List Char → ScState → List (List Char)
  | [], .piece cur => [cur.reverse]
  | [], _ => [[]]
  | c :: r, .piece cur =>
    if isSpaceC c then
      match connAt ((c :: r).dropWhile isSpaceC) with
      | some _ => cur.reverse :: splitConnGo r .run1
      | none => splitConnGo r (.piece (c :: cur))
    else splitConnGo r (.piece (c :: cur))
  | c :: r, .run1 =>
    if isSpaceC c then splitConnGo r .run1
    else if c = 'с' then splitConnGo r .run2
    else splitConnGo r .conn1
  | _ :: r, .conn1 => splitConnGo r .run2
  | c :: r, .run2 =>
    if isSpaceC c then splitConnGo r .run2
    else splitConnGo r (.piece [c])

def splitConn (l : List Char) : List (List Char) := splitConnGo l (.piece [])

/-- the text starts with the literal `"по"` -/
def startPo : List Char → Bool
  | 'п' :: 'о' :: _ => true
  | _ => false

/-- `'по' in s` (substring containment) -/
def hasPo : List Char → Bool
  | [] => false
  | c :: r => startPo (c :: r) || hasPo r

/-- the text starts with `"по"` or `"до"`; returns the remainder -/
def connHead2 : List Char → Option (List Char)
  | 'п' :: 'о' :: r => some r
  | 'д' :: 'о' :: r => some r
  | _ => none

/-- `re.search(r'по|до', s)` succeeds -/
def hasConnSub : List Char → Bool
  | [] => false
  | c :: r => (connHead2 (c :: r)).isSome || hasConnSub r

/-- after a connector occurrence, the `\s+(.+)` tail of
`re.search(r'(?:по|до)\s+(.+)', s)` with its backtracking: at least one
whitespace, then group 1 is the maximal newline-free run from the first
position that makes the match succeed -/
def afterConnGroup (r : List Char) : Option (List Char) :=
  if (r.takeWhile isSpaceC).length = 0 then none
  else
    match r.dropWhile isSpaceC with
    | c :: t => some ((c :: t).takeWhile (fun x => x ≠ nl))
    | [] =>
      match r.reverse.findIdx? (fun x => x ≠ nl) with
      | some i =>
        if i + 1 ≤ r.length - 1 then
          some ((r.drop (r.length - (i + 1))).takeWhile (fun x => x ≠ nl))
        else none
      | none => none

/-- `re.search(r'(?:по|до)\s+(.+)', s)`: first position where the whole
pattern matches; returns group 1 -/
def searchUntil : List Char → Option (List Char)
  | [] => none
  | c :: r =>
    match connHead2 (c :: r) with
    | some rest =>
      match afterConnGroup rest with
      | some g => some g
      | none => searchUntil r
    | none => searchUntil r

/-- rules 3 and 4 of `parse_date_range`: the `"по 5 ноября 2025"` /
`"до ..."` bounded form with the fixed 7-day lookback (the
`date - timedelta(days=7)` subtraction raises `OverflowError` below the
calendar minimum, modelled as `.error`), then the single-date fallback -/
def rangeRest4 (s : List Char) : Except String (Option Date × Option Date) :=
  match parse_date_l s with
  | some d => .ok (some d, some d)
  | none => .ok (none, none)

def rangeRest3 (s : List Char) : Except String (Option Date × Option Date) :=
  if hasConnSub s then
    match searchUntil s with
    | some g =>
      match parse_date_l (pyStrip g) with
      | some dt =>
        match subDays? dt 7 with
        | some st => .ok (some st, some dt)
        | none => .error "date value out of range"
      | none => rangeRest4 s
    | none => rangeRest4 s
  else rangeRest4 s

/-- rule 2 of `parse_date_range` (`"... с X по Y ..."`): guarded by
substring containment of `'с'` and `'по'`; the split must give exactly
three parts; if either sub-parse fails the rule falls through -/
def rangeRest2 (s : List Char) : Except String (Option Date × Option Date) :=
  if s.contains 'с' && hasPo s then
    match splitConn s with
    | [_, p1, p2] =>
      match parse_date_l (pyStrip p1), parse_date_l (pyStrip p2) with
      | some a, some b => .ok (some a, some b)
      | _, _ => rangeRest3 s
    | _ => rangeRest3 s
  else rangeRest3 s

/-- normalisation at the top of `parse_date_range`:
`date_range_str.lower().strip()` -/
def rangeNorm (s : String) : List Char := pyStrip (pyLower s.data)

/-- `VideoAnalytics.parse_date_range`; an uncaught exception inside it is
modelled as `.error` with `str(e)` -/
def parse_date_range (s : String) : Except String (Option Date × Option Date) :=
  match rangeRule1 (rangeNorm s) with
  | some (a, b) => .ok (some a, some b)
  | none => rangeRest2 (rangeNorm s)

/-! ## JSON values (the possible results of `json.loads`) -/

mutual
inductive Json where
  | null : Json
  | bool : Bool → Json
  | num : Int → Json
  | str : String → Json
  | arr : JsonList → Json
  | obj : JsonFields → Json
inductive JsonList where
  | nil : JsonList
  | cons : Json → JsonList → JsonList
inductive JsonFields where
  | nil : JsonFields
  | cons : String → Json → JsonFields → JsonFields
end

/-- `dict.get` on the fields of a parsed object (`json.loads` keeps the
last occurrence of a duplicated key, so lookup is last-wins) -/
def fieldsGet : JsonFields → String → Option Json
  | .nil, _ => none
  | .cons k v r, key =>
    match fieldsGet r key with
    | some j => some j
    | none => if k = key then some v else none

mutual
/-- Python `str(obj)` -/
def pyStr : Json → String
  | .null => "None"
  | .bool b => if b then "True" else "False"
  | .num n => toString n
  | .str s => s
  | .arr xs => "[" ++ pyReprList xs ++ "]"
  | .obj fs => String.singleton lb ++ pyReprFields fs ++ String.singleton rb
/-- Python `repr(obj)` (used for elements of containers) -/
def pyRepr : Json → String
  | .null => "None"
  | .bool b => if b then "True" else "False"
  | .num n => toString n
  | .str s => sq ++ s ++ sq
  | .arr xs => "[" ++ pyReprList xs ++ "]"
  | .obj fs => String.singleton lb ++ pyReprFields fs ++ String.singleton rb
def pyReprList : JsonList → String
  | .nil => ""
  | .cons x .nil => pyRepr x
  | .cons x r => pyRepr x ++ ", " ++ pyReprList r
def pyReprFields : JsonFields → String
  | .nil => ""
  | .cons k v .nil => sq ++ k ++ sq ++ ": " ++ pyRepr v
  | .cons k v r => sq ++ k ++ sq ++ ": " ++ pyRepr v ++ ", " ++ pyReprFields r
end

/-- Python `x is None` on a JSON value (`json.loads` turns JSON `null`
into Python `None`) -/
def isNullJ : Json → Bool
  | .null => true
  | _ => false

/-- Python `int(x)` on a JSON value: `TypeError`/`ValueError` is `none` -/
def pyIntOfJson : Json → Option Int
  | .num n => some n
  | .bool b => some (if b then 1 else 0)
  | .str s => pyInt s.data
  | _ => none

/-- Python `x.strip()` on a JSON value: `AttributeError` (with its
`str(e)` message) for non-strings -/
def pyTypeName : Json → String
  | .null => "NoneType"
  | .bool _ => "bool"
  | .num _ => "int"
  | .str _ => "str"
  | .arr _ => "list"
  | .obj _ => "dict"

def pyStripAttr (j : Json) : Except String String :=
  match j with
  | .str s => .ok (pyStripS s)
  | j => .error (sq ++ pyTypeName j ++ sq ++ " object has no attribute " ++
      sq ++ "strip" ++ sq)

/-! ## Intent catalog and response validation -/

/-- the key set of `VideoAnalytics.AVAILABLE_METHODS` -/
def catalogNames : List String :=
  ["get_video_count", "get_videos_by_creator_in_date_range",
   "get_videos_with_views_more_than", "get_total_views_growth_on_date",
   "get_unique_videos_with_new_views_on_date"]

/-- `AVAILABLE_METHODS` with descriptions and parameter lists (used to
build the model context) -/
def AVAILABLE_METHODS : List (String × String × List String) :=
  [("get_video_count", "Получить общее количество видео в системе", []),
   ("get_videos_by_creator_in_date_range",
    "Получить количество видео у креатора в диапазоне дат",
    ["creator_id", "date_range"]),
   ("get_videos_with_views_more_than",
    "Получить количество видео с просмотрами больше указанного значения",
    ["views_threshold"]),
   ("get_total_views_growth_on_date",
    "Получить суммарный рост просмотров за указанную дату", ["date"]),
   ("get_unique_videos_with_new_views_on_date",
    "Получить количество уникальных видео с новыми просмотрами за указанную дату",
    ["date"])]

structure Validated where
  method : String
  params : List (String × Json)
  explanation : String

/-- the per-value normalisation in the params loop: string values are
stripped, other values kept as they are -/
def stripIfStr : Json → Json
  | .str s => .str (pyStripS s)
  | j => j

def validateParams : JsonFields → List (String × Json)
  | .nil => []
  | .cons k v r => (k, stripIfStr v) :: validateParams r

/-- last-wins lookup on validated params (Python dict built by the loop) -/
def assocGet : List (String × Json) → String → Option Json
  | [], _ => none
  | p :: r, key =>
    match assocGet r key with
    | some j => some j
    | none => if p.1 = key then some p.2 else none

/-- `VideoAnalytics._validate_model_response` on a parsed JSON object:
the method string is normalised to `'unknown'` unless it is a catalog
name or already `'unknown'`; a present but non-object `params` field is
silently replaced by the empty map -/
def validate_model_response (fields : JsonFields) : Validated :=
  { method :=
      let m := pyStripS (pyStr ((fieldsGet fields "method").getD (.str "")))
      if catalogNames.contains m || m = "unknown" then m else "unknown"
    params :=
      match fieldsGet fields "params" with
      | some (.obj l) => validateParams l
      | _ => []
    explanation :=
      pyStripS (pyStr ((fieldsGet fields "explanation").getD (.str ""))) }

/-! ## Extraction of the JSON text from the raw model response -/

/-- `re.search(r'```json\s*([\s\S]*?)\s*```', s)`: content of the first
fenced block, whitespace-trimmed at both ends by the greedy `\s*` and
the lazy group -/
def fencedContent (l : List Char) : Option (List Char) :=
  match subIdx l ("```json".data) with
  | some i =>
    match subIdx (l.drop (i + 7)) ("```".data) with
    | some j => some (pyStrip ((l.drop (i + 7)).take j))
    | none => none
  | none => none

/-- the two `re.sub` clean-ups: drop everything before the first opening
brace and after the last closing brace (keeping nothing when the brace is
absent), applied to the fenced content or the whole response -/
def extract_json (s : String) : String :=
  let body := match fencedContent s.data with | some b => b | none => s.data
  let b1 := body.dropWhile (fun c => c ≠ lb)
  String.mk (b1.reverse.dropWhile (fun c => c ≠ rb)).reverse

/-! ## Environment: the external collaborators -/

/-- outcome kinds of `json.loads`: a `json.JSONDecodeError` (caught at
step 4) or any other exception (escapes to the outer handler) -/
inductive JsonErr where
  | decode : JsonErr
  | other : JsonErr

/-- one parameterized read query issued to the SQLite storage
collaborator -/
inductive Query where
  | count : Query
  | byCreator : String → Date → Date → Query
  | viewsMoreThan : Int → Query
  | growth : Date → Query
  | uniqueNew : Date → Query
deriving DecidableEq, Repr

/-- the external collaborators of one `process_question` call: the
retrieval service (already reduced to its document list, internal
failures degrade to `[]` inside `search_in_embeddings`), the generation
service (`ollama.chat`, any exception collapsed to `.error`),
`json.loads`, and the five storage queries (`.error` carries `str(e)` of
an `sqlite3.Error`) -/
structure Env where
  retrieval : String → List String
  gen : String → Except Unit String
  jsonDecode : String → Except JsonErr Json
  dbCount : Except String Int
  dbByCreator : String → Date → Date → Except String Int
  dbViews : Int → Except String Int
  dbGrowth : Date → Except String Int
  dbUnique : Date → Except String Int

/-! ## Context and prompt construction -/

def methodLine (p : String × String × List String) : String :=
  "- " ++ p.1 ++ ": " ++ p.2.1 ++ "\n" ++
  (if p.2.2.isEmpty then ""
   else "  Параметры: " ++ String.intercalate ", " p.2.2 ++ "\n")

def methodsInfo : String :=
  "ДОСТУПНЫЕ МЕТОДЫ ДЛЯ ОТВЕТА НА ВОПРОС:\n" ++
  String.join (AVAILABLE_METHODS.map methodLine)

def examplesBlock : String :=
  "\nПРИМЕРЫ ВОПРОСОВ И ОТВЕТОВ:\n" ++
  "- \"Сколько всего видео есть в системе?\" -> метод: get_video_count\n" ++
  "- \"Сколько видео у креатора с id abc123 вышло с 1 по 5 ноября 2025?\" " ++
  "-> метод: get_videos_by_creator_in_date_range, параметры: " ++
  "creator_id=\"abc123\", date_range=\"1-5 ноября 2025\"\n" ++
  "- \"Сколько видео набрало больше 100000 просмотров?\" -> метод: " ++
  "get_videos_with_views_more_than, параметр: views_threshold=100000\n" ++
  "- \"На сколько просмотров в сумме выросли все видео 28 ноября 2025?\" " ++
  "-> метод: get_total_views_growth_on_date, параметр: date=\"28 ноября 2025\"\n" ++
  "- \"Сколько разных видео получали новые просмотры 27 ноября 2025?\" " ++
  "-> метод: get_unique_videos_with_new_views_on_date, параметр: " ++
  "date=\"27 ноября 2025\"\n"

def knowledgeLines : Nat → List String → String
  | _, [] => ""
  | i, d :: r => toString i ++ ". " ++ d ++ "\n" ++ knowledgeLines (i + 1) r

/-- `VideoAnalytics._build_context` -/
def build_context (env : Env) (question : String) : String :=
  let docs := env.retrieval question
  String.intercalate "\n\n"
    ([methodsInfo, examplesBlock] ++
     (if docs.isEmpty then []
      else ["\nРЕЛЕВАНТНАЯ ИНФОРМАЦИЯ ИЗ БАЗЫ ЗНАНИЙ:\n" ++
            knowledgeLines 1 (docs.take 3)]))

/-- `VideoAnalytics._generate_prompt` -/
def generate_prompt (question context : String) : String :=
  "Ты — система аналитики видео данных. Твоя задача — точно определить, " ++
  "какой метод нужно вызвать для ответа на вопрос пользователя, и извлечь " ++
  "все необходимые параметры.\n\nКОНТЕКСТ:\n" ++ context ++
  "\n\nВОПРОС ПОЛЬЗОВАТЕЛЯ:\n" ++ question ++
  "\n\nИНСТРУКЦИИ:\n1. ВНИМАТЕЛЬНО проанализируй вопрос и контекст.\n" ++
  "2. Извлеки ВСЕ необходимые параметры из вопроса. Для дат используй " ++
  "ФОРМАТ \"ДД месяц ГГГГ\" (например, \"28 ноября 2025\").\n" ++
  "3. Если в вопросе не хватает параметров — сделай обоснованное " ++
  "предположение на основе контекста или используй значения по умолчанию.\n" ++
  "4. Верни ответ ТОЛЬКО в формате JSON со следующими полями:\n" ++
  "   - \"method\": название метода (строка)\n" ++
  "   - \"params\": объект с параметрами (пустой объект, если параметры не нужны)\n" ++
  "   - \"explanation\": краткое объяснение выбора (необязательно, но желательно)\n" ++
  "\nВАЖНО:\n- Для дат используй ИСХОДНОЕ текстовое представление из вопроса, " ++
  "не преобразовывай в ISO формат.\n" ++
  "- Если не можешь определить метод с уверенностью 95% — верни \"method\": \"unknown\".\n" ++
  "- ОТВЕТ ДОЛЖЕН БЫТЬ ТОЛЬКО В ФОРМАТЕ JSON, без дополнительного текста.\n"

/-! ## The user-facing diagnostic sentences of `process_question` -/

def diagOllama : String :=
  "Извините, сейчас не могу обработать запрос. Попробуйте позже."

def diagParse : String :=
  "Не удалось понять ваш вопрос. Пожалуйста, переформулируйте его."

def diagUnknown : String :=
  "Не удалось определить, как ответить на ваш вопрос. Пожалуйста, задайте его более конкретно."

def diagMissingCreator : String :=
  "Не хватает параметров: требуется ID креатора и диапазон дат."

def diagBadRange (t : String) : String :=
  "Не удалось распарсить диапазон дат: " ++ sq ++ t ++ sq

def diagNoThreshold : String := "Не указан порог просмотров."

def diagNegThreshold : String := "Порог просмотров не может быть отрицательным."

def diagBadThreshold (t : String) : String :=
  "Некорректное значение порога просмотров: " ++ sq ++ t ++ sq

def diagNoDate : String := "Не указана дата."

def diagBadDate (t : String) : String :=
  "Не удалось распарсить дату: " ++ sq ++ t ++ sq

def diagUnknownMethod : String := "Неизвестный метод для обработки вопроса."

def diagExec (t : String) : String := "Ошибка при получении данных: " ++ t

def diagInternal : String :=
  "Произошла внутренняя ошибка. Пожалуйста, попробуйте позже."

/-! ## Step 5 of `process_question`: dispatch of a validated intent -/

/-- the method-execution block (lines 545-607): returns the reply string
together with the trace of storage queries issued; every exception inside
the block (attribute errors on parameter access, `OverflowError` from the
range parser, `sqlite3.Error` from storage) is caught by its
`except Exception` and rendered as the data-retrieval diagnostic -/
def dispatchIntent (env : Env) (v : Validated) : String × List Query :=
  if v.method = "get_video_count" then
    match env.dbCount with
    | .ok n => (toString n, [Query.count])
    | .error e => (diagExec e, [Query.count])
  else if v.method = "get_videos_by_creator_in_date_range" then
    match pyStripAttr ((assocGet v.params "creator_id").getD (.str "")) with
    | .error e => (diagExec e, [])
    | .ok cid =>
      match pyStripAttr ((assocGet v.params "date_range").getD (.str "")) with
      | .error e => (diagExec e, [])
      | .ok dr =>
        if cid = "" || dr = "" then (diagMissingCreator, [])
        else
          match parse_date_range dr with
          | .error e => (diagExec e, [])
          | .ok (some sd, some ed) =>
            (match env.dbByCreator cid sd ed with
             | .ok n => (toString n, [Query.byCreator cid sd ed])
             | .error e => (diagExec e, [Query.byCreator cid sd ed]))
          | .ok _ => (diagBadRange dr, [])
  else if v.method = "get_videos_with_views_more_than" then
    match assocGet v.params "views_threshold" with
    | none => (diagNoThreshold, [])
    | some vt =>
      -- `params.get('views_threshold')` returns `None` both when the key
      -- is absent and when its value is JSON null, and the code checks
      -- `if views_threshold is None` before attempting `int()`
      if isNullJ vt then (diagNoThreshold, [])
      else
      match pyIntOfJson vt with
      | none => (diagBadThreshold (pyStr vt), [])
      | some t =>
        if t < 0 then (diagNegThreshold, [])
        else
          match env.dbViews t with
          | .ok n => (toString n, [Query.viewsMoreThan t])
          | .error e => (diagExec e, [Query.viewsMoreThan t])
  else if v.method = "get_total_views_growth_on_date" then
    match pyStripAttr ((assocGet v.params "date").getD (.str "")) with
    | .error e => (diagExec e, [])
    | .ok ds =>
      if ds = "" then (diagNoDate, [])
      else
        match parse_date ds with
        | none => (diagBadDate ds, [])
        | some dt =>
          match env.dbGrowth dt with
          | .ok n => (toString n, [Query.growth dt])
          | .error e => (diagExec e, [Query.growth dt])
  else if v.method = "get_unique_videos_with_new_views_on_date" then
    match pyStripAttr ((assocGet v.params "date").getD (.str "")) with
    | .error e => (diagExec e, [])
    | .ok ds =>
      if ds = "" then (diagNoDate, [])
      else
        match parse_date ds with
        | none => (diagBadDate ds, [])
        | some dt =>
          match env.dbUnique dt with
          | .ok n => (toString n, [Query.uniqueNew dt])
          | .error e => (diagExec e, [Query.uniqueNew dt])
  else (diagUnknownMethod, [])

/-- `VideoAnalytics.process_question`.  The result pairs the returned
string with the trace of storage queries issued.  Exceptions are modelled
explicitly: a generation-service failure returns the unavailability
diagnostic, a `json.JSONDecodeError` the reformulation diagnostic; any
other exception that escapes step 4 (a non-decode failure of the decoder,
or the `AttributeError` raised when the parsed value is not an object) is
caught by the outer handler and yields the internal-error diagnostic. -/
def process_question (env : Env) (question : String) : String × List Query :=
  match env.gen (generate_prompt question (build_context env question)) with
  | .error _ => (diagOllama, [])
  | .ok resp =>
    match env.jsonDecode (extract_json (pyStripS resp)) with
    | .error JsonErr.decode => (diagParse, [])
    | .error JsonErr.other => (diagInternal, [])
    | .ok (.obj fields) =>
      if (validate_model_response fields).method = "unknown" then (diagUnknown, [])
      else dispatchIntent env (validate_model_response fields)
    | .ok _ => (diagInternal, [])

/-! ## Further definitions used by the specification statements -/

/-- the strings that `process_question` can return besides a decimal
number: the fixed diagnostic sentences, four of them echoing an input
fragment -/
inductive IsDiagnostic : String → Prop where
  | ollamaDown : IsDiagnostic diagOllama
  | parseFail : IsDiagnostic diagParse
  | unknownIntent : IsDiagnostic diagUnknown
  | missingCreator : IsDiagnostic diagMissingCreator
  | badRange (t : String) : IsDiagnostic (diagBadRange t)
  | noThreshold : IsDiagnostic diagNoThreshold
  | negThreshold : IsDiagnostic diagNegThreshold
  | badThreshold (t : String) : IsDiagnostic (diagBadThreshold t)
  | noDate : IsDiagnostic diagNoDate
  | badDate (t : String) : IsDiagnostic (diagBadDate t)
  | unknownMethod : IsDiagnostic diagUnknownMethod
  | exec (t : String) : IsDiagnostic (diagExec t)
  | internal : IsDiagnostic diagInternal

/-- is the JSON value an object? -/
def isObjJ : Json → Bool
  | .obj _ => true
  | _ => false

/-- the missing-parameter diagnostic produced for each catalog method
that requires parameters -/
def missingParamDiag (m : String) : String :=
  if m = "get_videos_by_creator_in_date_range" then diagMissingCreator
  else if m = "get_videos_with_views_more_than" then diagNoThreshold
  else diagNoDate

/-- digit character of `k` -/
def dc (k : Nat) : Char := chr (48 + k)

/-- the strict zero-padded ISO rendering `YYYY-MM-DD` of a date (the
input shape of the round-trip property) -/
def isoRender (y m d : Nat) : String :=
  String.mk [dc (y / 1000 % 10), dc (y / 100 % 10), dc (y / 10 % 10), dc (y % 10),
             '-', dc (m / 10 % 10), dc (m % 10), '-', dc (d / 10 % 10), dc (d % 10)]

/-! Concrete environments used to instantiate the theorems. -/

def fieldsC5 : JsonFields := .cons "method" (.str "summarize_views") .nil

def fieldsC6 : JsonFields :=
  .cons "method" (.str "get_videos_with_views_more_than")
    (.cons "params" (.obj (.cons "views_threshold" (.str "-5") .nil)) .nil)

def fieldsC10 : JsonFields :=
  .cons "method" (.str "get_total_views_growth_on_date")
    (.cons "params" (.str "no params here") .nil)

def baseEnv : Env :=
  { retrieval := fun _ => []
    gen := fun _ => .ok "ответ модели"
    jsonDecode := fun _ => .error .decode
    dbCount := .ok 0
    dbByCreator := fun _ _ _ => .ok 0
    dbViews := fun _ => .ok 0
    dbGrowth := fun _ => .ok 0
    dbUnique := fun _ => .ok 0 }

def envC5 : Env := { baseEnv with jsonDecode := fun _ => .ok (.obj fieldsC5) }

def envC6 : Env := { baseEnv with jsonDecode := fun _ => .ok (.obj fieldsC6) }

def envC10 : Env := { baseEnv with jsonDecode := fun _ => .ok (.obj fieldsC10) }

/-! # Theorems -/

/-! ## Soundness of the date constructors and parser branches -/

theorem mkDate?_sound {y m d : Nat} {dt : Date} (h : mkDate? y m d = some dt) :
    dt = ⟨y, m, d⟩ ∧ 1 ≤ y ∧ y ≤ 9999 ∧ realDate y m d := by
  unfold mkDate? at h
  split at h
  · cases h
    exact ⟨rfl, by assumption⟩
  · cases h

theorem isoParse_sound {l : List Char} {dt : Date} (h : isoParse l = some dt) :
    1 ≤ dt.year ∧ dt.year ≤ 9999 ∧ realDate dt.year dt.month dt.day := by
  unfold isoParse at h
  split at h
  · unfold strptimeYmd at h
    split at h
    · split at h
      · split at h
        · obtain ⟨rfl, h1, h2, h3⟩ := mkDate?_sound h
          exact ⟨h1, h2, h3⟩
        · cases h
      · cases h
    · cases h
  · cases h

theorem tokenizedParse_sound {l : List Char} {dt : Date}
    (h : tokenizedParse l = some dt) :
    1970 ≤ dt.year ∧ dt.year ≤ 2100 ∧ realDate dt.year dt.month dt.day := by
  unfold tokenizedParse at h
  simp only [] at h
  split at h
  · split at h
    · split at h
      · split at h
        · split at h
          · split at h
            · obtain ⟨rfl, _, _, h3⟩ := mkDate?_sound h
              refine ⟨?_, ?_, h3⟩ <;> dsimp only <;> omega
            · cases h
          · cases h
        · cases h
      · cases h
    · cases h
  · cases h

theorem dottedParse_sound {l : List Char} {dt : Date}
    (h : dottedParse l = some dt) :
    1 ≤ dt.year ∧ dt.year ≤ 9999 ∧ realDate dt.year dt.month dt.day := by
  unfold dottedParse at h
  split at h
  · split at h
    · split at h
      · obtain ⟨rfl, h1, h2, h3⟩ := mkDate?_sound h
        exact ⟨h1, h2, h3⟩
      · cases h
    · cases h
  · cases h

theorem parse_date_l_sound {l : List Char} {dt : Date}
    (h : parse_date_l l = some dt) :
    1 ≤ dt.year ∧ dt.year ≤ 9999 ∧ realDate dt.year dt.month dt.day := by
  unfold parse_date_l parseDateCore at h
  split at h
  · cases h
    exact isoParse_sound (by assumption)
  · split at h
    · cases h
      have := @tokenizedParse_sound _ dt (by assumption)
      exact ⟨by omega, by omega, this.2.2⟩
    · exact dottedParse_sound h

/-- Claim C3 (amended): every date accepted by `parse_date` — through any
of the three forms — is a real calendar date with year in the `datetime`
range `[1, 9999]` (so in particular `day ∈ [1, 31]` and the month
resolves); but the bound `[1970, 2100]` is enforced only by the tokenized
`"day month-name year"` branch, not by the ISO or dotted branches. -/
theorem claim_C3 (s : String) (dt : Date) :
    (parse_date s = some dt →
      1 ≤ dt.year ∧ dt.year ≤ 9999 ∧ realDate dt.year dt.month dt.day) ∧
    (tokenizedParse (dateNorm s.data) = some dt →
      1970 ≤ dt.year ∧ dt.year ≤ 2100) := by
  constructor
  · intro h
    exact parse_date_l_sound h
  · intro h
    have := tokenizedParse_sound h
    exact ⟨this.1, this.2.1⟩

/-- Claim C3, counterexample: the ISO form accepts `"2101-01-01"` whose
year lies outside `[1970, 2100]`, refuting "any candidate with year
outside `[1970, 2100]` is rejected regardless of which form matched". -/
theorem claim_C3_counterexample :
    parse_date "2101-01-01" = some ⟨2101, 1, 1⟩ ∧ ¬ (2101 ≤ 2100) :=
  ⟨by rfl, by omega⟩

theorem claim_C3_witness :
    1 ≤ (2025 : Nat) ∧ (2025 : Nat) ≤ 9999 ∧ realDate 2025 11 28 :=
  (claim_C3 "28.11.2025" ⟨2025, 11, 28⟩).1 (by rfl)

/-! ## The shared-month range form (claim C2) -/

/-- Claim C2 (amended): a successful `"day-day month year"` match returns
exactly the two days against the shared month and year, and the returned
range satisfies `start ≤ end` if and only if the first day is at most the
second — `parse_date_range` does not enforce the `start ≤ end` invariant. -/
theorem claim_C2 (s : String) (d1 d2 : Nat) (mn : List Char) (y m : Nat)
    (a b : Date)
    (hm : rangeMatch (rangeNorm s) = some (d1, d2, mn, y))
    (hmo : monthFind MONTH_MAP (stripDots mn) = some m)
    (ha : mkDate? y m d1 = some a) (hb : mkDate? y m d2 = some b) :
    parse_date_range s = .ok (some a, some b) ∧ (dateLe a b ↔ d1 ≤ d2) := by
  have hr : rangeRule1 (rangeNorm s) = some (a, b) := by
    unfold rangeRule1
    simp only [hm, hmo, ha, hb]
  constructor
  · unfold parse_date_range
    rw [hr]
  · obtain ⟨rfl, -, -, -⟩ := mkDate?_sound ha
    obtain ⟨rfl, -, -, -⟩ := mkDate?_sound hb
    unfold dateLe
    dsimp only
    omega

/-- Claim C2, counterexample: `"5-1 ноября 2025"` parses successfully to
a range whose start is after its end. -/
theorem claim_C2_counterexample :
    parse_date_range "5-1 ноября 2025" =
      .ok (some ⟨2025, 11, 5⟩, some ⟨2025, 11, 1⟩) ∧
    ¬ dateLe ⟨2025, 11, 5⟩ ⟨2025, 11, 1⟩ :=
  ⟨by rfl, by decide⟩

theorem claim_C2_witness :
    parse_date_range "1-5 ноября 2025" =
      .ok (some ⟨2025, 11, 1⟩, some ⟨2025, 11, 5⟩) ∧
    (dateLe ⟨2025, 11, 1⟩ ⟨2025, 11, 5⟩ ↔ 1 ≤ 5) :=
  claim_C2 "1-5 ноября 2025" 1 5 ("ноября".data) 2025 11
    ⟨2025, 11, 1⟩ ⟨2025, 11, 5⟩ (by rfl) (by rfl) (by rfl) (by rfl)

/-! ## Fall-through of the "from X to Y" range form (claim C4) -/

/-- Claim C4 (amended): when the `"... с X по Y ..."` split yields exactly
three segments but parsing segment 2 or segment 3 fails, the rule yields
nothing and `parse_date_range` falls through to the later rules (the
`"по/до Y"` 7-day form and the single-date fallback), which may still
return a range; the whole parse fails only if those rules also fail. -/
theorem claim_C4 (s : String) (p0 p1 p2 : List Char)
    (h1 : rangeRule1 (rangeNorm s) = none)
    (hg : ((rangeNorm s).contains 'с' && hasPo (rangeNorm s)) = true)
    (hs : splitConn (rangeNorm s) = [p0, p1, p2])
    (hf : parse_date_l (pyStrip p1) = none ∨ parse_date_l (pyStrip p2) = none) :
    parse_date_range s = rangeRest3 (rangeNorm s) := by
  unfold parse_date_range
  rw [h1]
  unfold rangeRest2
  rw [hs]
  simp only [hg, if_true]
  rcases hf with hf | hf
  · rw [hf]
  · rw [hf]
    cases parse_date_l (pyStrip p1) <;> rfl

/-- Claim C4, counterexample: in `"x с abc по 5 ноября 2025"` the second
segment `"abc"` fails to parse, yet `parse_date_range` does not fail: the
later `"по Y"` rule fires and returns the 7-day window ending at
2025-11-05. -/
theorem claim_C4_counterexample :
    splitConn (rangeNorm "x с abc по 5 ноября 2025") =
      ["x".data, "abc".data, "5 ноября 2025".data] ∧
    parse_date "abc" = none ∧
    parse_date_range "x с abc по 5 ноября 2025" =
      .ok (some ⟨2025, 10, 29⟩, some ⟨2025, 11, 5⟩) :=
  ⟨by rfl, by rfl, by rfl⟩

theorem claim_C4_witness :
    parse_date_range "x с abc по 5 ноября 2025" =
      rangeRest3 (rangeNorm "x с abc по 5 ноября 2025") :=
  claim_C4 "x с abc по 5 ноября 2025" ("x".data) ("abc".data)
    ("5 ноября 2025".data) (by rfl) (by rfl) (by rfl) (Or.inl (by rfl))

/-! ## The upper-bound-only range form (claim C7) -/

/-- Claim C7 (amended): when the earlier rules fall through and the
`"по/до Y"` search succeeds with a trailing date `Y` that parses, the
result is the range from `Y` minus exactly 7 calendar days to `Y` —
provided the subtraction stays inside the supported calendar (otherwise
the `date - timedelta(days=7)` subtraction raises `OverflowError` and the
call fails instead of returning a range). -/
theorem claim_C7 (s : String) (g : List Char) (yd st : Date)
    (h1 : rangeRule1 (rangeNorm s) = none)
    (h2 : rangeRest2 (rangeNorm s) = rangeRest3 (rangeNorm s))
    (h3 : hasConnSub (rangeNorm s) = true)
    (h4 : searchUntil (rangeNorm s) = some g)
    (h5 : parse_date_l (pyStrip g) = some yd)
    (h6 : subDays? yd 7 = some st) :
    parse_date_range s = .ok (some st, some yd) := by
  unfold parse_date_range
  rw [h1, h2]
  unfold rangeRest3
  simp only [h3, if_true, h4, h5, h6]

/-- Claim C7, counterexample: `"по 01.01.0001"` has a trailing date that
parses (to 0001-01-01), yet `parse_date_range` does not return the 7-day
window: the subtraction overflows the calendar and the call raises. -/
theorem claim_C7_counterexample :
    parse_date "01.01.0001" = some ⟨1, 1, 1⟩ ∧
    parse_date_range "по 01.01.0001" = .error "date value out of range" :=
  ⟨by rfl, by rfl⟩

theorem claim_C7_witness :
    parse_date_range "по 5 ноября 2025" =
      .ok (some ⟨2025, 10, 29⟩, some ⟨2025, 11, 5⟩) :=
  claim_C7 "по 5 ноября 2025" ("5 ноября 2025".data) ⟨2025, 11, 5⟩
    ⟨2025, 10, 29⟩ (by rfl) (by rfl) (by rfl) (by rfl) (by rfl) (by rfl)

/-! ## Validation and dispatch of intents (claims C5, C6, C10) -/

theorem process_reaches_dispatch (env : Env) (q raw : String) (fields : JsonFields)
    (hg : env.gen (generate_prompt q (build_context env q)) = .ok raw)
    (hj : env.jsonDecode (extract_json (pyStripS raw)) = .ok (.obj fields))
    (hne : (validate_model_response fields).method ≠ "unknown") :
    process_question env q = dispatchIntent env (validate_model_response fields) := by
  unfold process_question
  simp only [hg, hj]
  rw [if_neg hne]

/-- Claim C5: a parsed model response whose method field is not one of
the five catalog names normalizes to `'unknown'` during validation, and
processing then returns the unknown-intent diagnostic with an empty
storage-query trace. -/
theorem claim_C5 (env : Env) (q raw : String) (fields : JsonFields)
    (hg : env.gen (generate_prompt q (build_context env q)) = .ok raw)
    (hj : env.jsonDecode (extract_json (pyStripS raw)) = .ok (.obj fields))
    (hm : catalogNames.contains
        (pyStripS (pyStr ((fieldsGet fields "method").getD (.str "")))) = false) :
    (validate_model_response fields).method = "unknown" ∧
    process_question env q = (diagUnknown, []) := by
  have hv : (validate_model_response fields).method = "unknown" := by
    unfold validate_model_response
    dsimp only
    rw [hm]
    by_cases hcu :
        pyStripS (pyStr ((fieldsGet fields "method").getD (.str ""))) = "unknown"
    · simp [hcu]
    · simp [hcu]
  refine ⟨hv, ?_⟩
  unfold process_question
  simp only [hg, hj, hv, if_true]

/-- Claim C6: for a validated intent naming
`get_videos_with_views_more_than` whose `views_threshold` value is
present and non-null (a JSON-null value, like an absent key, is reported
as a missing threshold before any parse is attempted) and fails integer
parsing or is negative, processing returns the corresponding
invalid-parameter diagnostic and issues no storage query. -/
theorem claim_C6 (env : Env) (q raw : String) (fields : JsonFields) (vt : Json)
    (hg : env.gen (generate_prompt q (build_context env q)) = .ok raw)
    (hj : env.jsonDecode (extract_json (pyStripS raw)) = .ok (.obj fields))
    (hm : (validate_model_response fields).method = "get_videos_with_views_more_than")
    (hp : assocGet (validate_model_response fields).params "views_threshold" = some vt)
    (hnn : isNullJ vt = false)
    (hbad : pyIntOfJson vt = none ∨ ∃ t : Int, pyIntOfJson vt = some t ∧ t < 0) :
    process_question env q = (diagBadThreshold (pyStr vt), []) ∨
    process_question env q = (diagNegThreshold, []) := by
  have hne : (validate_model_response fields).method ≠ "unknown" := by
    rw [hm]; decide
  rw [process_reaches_dispatch env q raw fields hg hj hne]
  unfold dispatchIntent
  rw [hm]
  rw [if_neg (by decide), if_neg (by decide), if_pos rfl]
  simp only [hp]
  rw [if_neg (by rw [hnn]; simp)]
  rcases hbad with hb | ⟨t, ht, htl⟩
  · simp only [hb]
    left
    trivial
  · simp only [ht]
    rw [if_pos htl]
    right
    trivial

/-- Claim C10: when the `params` field is present but not a JSON object,
validation silently replaces the parameters with the empty map, and a
method that requires parameters then fails with its missing-parameter
diagnostic (no parse error, no storage query). -/
theorem claim_C10 (env : Env) (q raw : String) (fields : JsonFields) (p : Json)
    (mn : String)
    (hg : env.gen (generate_prompt q (build_context env q)) = .ok raw)
    (hj : env.jsonDecode (extract_json (pyStripS raw)) = .ok (.obj fields))
    (hpp : fieldsGet fields "params" = some p)
    (hno : isObjJ p = false)
    (hm : (validate_model_response fields).method = mn)
    (hmem : mn = "get_videos_by_creator_in_date_range" ∨
            mn = "get_videos_with_views_more_than" ∨
            mn = "get_total_views_growth_on_date" ∨
            mn = "get_unique_videos_with_new_views_on_date") :
    (validate_model_response fields).params = [] ∧
    process_question env q = (missingParamDiag mn, []) := by
  have hparams : (validate_model_response fields).params = [] := by
    unfold validate_model_response
    dsimp only
    rw [hpp]
    cases p
    · rfl
    · rfl
    · rfl
    · rfl
    · rfl
    · simp [isObjJ] at hno
  have hne : (validate_model_response fields).method ≠ "unknown" := by
    rw [hm]
    rcases hmem with rfl | rfl | rfl | rfl <;> decide
  refine ⟨hparams, ?_⟩
  rw [process_reaches_dispatch env q raw fields hg hj hne]
  unfold dispatchIntent
  rw [hm, hparams]
  rcases hmem with rfl | rfl | rfl | rfl
  · rw [if_neg (by decide), if_pos rfl]
    rfl
  · rw [if_neg (by decide), if_neg (by decide), if_pos rfl]
    rfl
  · rw [if_neg (by decide), if_neg (by decide), if_neg (by decide), if_pos rfl]
    rfl
  · rw [if_neg (by decide), if_neg (by decide), if_neg (by decide),
      if_neg (by decide), if_pos rfl]
    rfl

theorem claim_C5_witness :
    (validate_model_response fieldsC5).method = "unknown" ∧
    process_question envC5 "вопрос" = (diagUnknown, []) :=
  claim_C5 envC5 "вопрос" "ответ модели" fieldsC5 (by rfl) (by rfl) (by rfl)

theorem claim_C6_witness :
    process_question envC6 "вопрос" =
      (diagBadThreshold (pyStr (Json.str "-5")), []) ∨
    process_question envC6 "вопрос" = (diagNegThreshold, []) :=
  claim_C6 envC6 "вопрос" "ответ модели" fieldsC6 (.str "-5") (by rfl) (by rfl)
    (by rfl) (by rfl) (by rfl) (Or.inr ⟨-5, by rfl, by decide⟩)

theorem claim_C10_witness :
    (validate_model_response fieldsC10).params = [] ∧
    process_question envC10 "вопрос" =
      (missingParamDiag "get_total_views_growth_on_date", []) :=
  claim_C10 envC10 "вопрос" "ответ модели" fieldsC10 (.str "no params here")
    "get_total_views_growth_on_date" (by rfl) (by rfl) (by rfl) (by rfl) (by rfl)
    (Or.inr (Or.inr (Or.inl rfl)))

/-! ## Totality and shape of the top-level answer (claim C1) -/

theorem dispatchIntent_shape (env : Env) (v : Validated) :
    (∃ n : Int, (dispatchIntent env v).1 = toString n) ∨
    IsDiagnostic (dispatchIntent env v).1 := by
  unfold dispatchIntent
  repeat' split
  all_goals
    first
      | exact Or.inl ⟨_, rfl⟩
      | exact Or.inr (IsDiagnostic.exec _)
      | exact Or.inr IsDiagnostic.missingCreator
      | exact Or.inr (IsDiagnostic.badRange _)
      | exact Or.inr IsDiagnostic.noThreshold
      | exact Or.inr IsDiagnostic.negThreshold
      | exact Or.inr (IsDiagnostic.badThreshold _)
      | exact Or.inr IsDiagnostic.noDate
      | exact Or.inr (IsDiagnostic.badDate _)
      | exact Or.inr IsDiagnostic.unknownMethod

/-- Claim C1: for every question and every behaviour of the
generation-service collaborator and of the JSON decoder (including
responses with no brace-delimited object, malformed JSON, non-object
JSON, decoder exceptions and collaborator failure), `process_question`
returns a string that is either the decimal rendering of an integer or
one of the fixed diagnostic sentences — no exception escapes the
boundary (every exception path lands on a diagnostic). -/
theorem claim_C1 (env : Env) (q : String) :
    (∃ n : Int, (process_question env q).1 = toString n) ∨
    IsDiagnostic (process_question env q).1 := by
  unfold process_question
  split
  · exact Or.inr IsDiagnostic.ollamaDown
  · split
    · exact Or.inr IsDiagnostic.parseFail
    · exact Or.inr IsDiagnostic.internal
    · split
      · exact Or.inr IsDiagnostic.unknownIntent
      · exact dispatchIntent_shape env _
    · exact Or.inr IsDiagnostic.internal

/-! ## Determinism of the pipeline (claim C8) -/

/-- Claim C8: `process_question` is a pure function of the question and
the collaborators (retrieval output, generation-service response,
JSON decoding, storage query results); two calls with the identical
question, identical collaborator behaviour and unchanged storage state
yield the identical result. -/
theorem claim_C8 (e1 e2 : Env) (q1 q2 : String) (hq : q1 = q2)
    (hret : e1.retrieval = e2.retrieval) (hgen : e1.gen = e2.gen)
    (hjd : e1.jsonDecode = e2.jsonDecode) (hdc : e1.dbCount = e2.dbCount)
    (hdb : e1.dbByCreator = e2.dbByCreator) (hdv : e1.dbViews = e2.dbViews)
    (hdg : e1.dbGrowth = e2.dbGrowth) (hdu : e1.dbUnique = e2.dbUnique) :
    process_question e1 q1 = process_question e2 q2 := by
  subst hq
  have he : e1 = e2 := by
    cases e1
    cases e2
    simp only [Env.mk.injEq]
    exact ⟨hret, hgen, hjd, hdc, hdb, hdv, hdg, hdu⟩
  rw [he]

theorem claim_C8_witness :
    process_question baseEnv "Сколько всего видео есть в системе?" =
    process_question baseEnv "Сколько всего видео есть в системе?" :=
  claim_C8 baseEnv baseEnv "Сколько всего видео есть в системе?"
    "Сколько всего видео есть в системе?" rfl rfl rfl rfl rfl rfl rfl rfl rfl

/-! ## The ISO round-trip (claim C9) -/

theorem dc_toNat (k : Nat) (h : k < 10) : (dc k).toNat = 48 + k := by
  interval_cases k <;> decide

theorem dc_digit (k : Nat) (h : k < 10) : isDigitC (dc k) = true := by
  interval_cases k <;> decide

theorem dc_notSpace (k : Nat) (h : k < 10) : isSpaceC (dc k) = false := by
  interval_cases k <;> decide

theorem dc_lower (k : Nat) (h : k < 10) : pyLowerC (dc k) = dc k := by
  interval_cases k <;> decide

theorem dropWhile_noop {p : Char → Bool} {l : List Char}
    (h : ∀ c ∈ l, p c = false) : l.dropWhile p = l := by
  cases l with
  | nil => rfl
  | cons c r =>
    have hc := h c (List.mem_cons_self c r)
    simp [List.dropWhile, hc]

theorem pyStrip_noop {l : List Char} (h : ∀ c ∈ l, isSpaceC c = false) :
    pyStrip l = l := by
  unfold pyStrip
  rw [dropWhile_noop h, dropWhile_noop, List.reverse_reverse]
  intro c hc
  exact h c (List.mem_reverse.mp hc)

theorem pyLower_noop :
    ∀ (l : List Char), (∀ c ∈ l, pyLowerC c = c) → pyLower l = l := by
  intro l
  induction l with
  | nil => intro _; rfl
  | cons c r ih =>
    intro h
    show pyLowerC c :: pyLower r = c :: r
    rw [h c (List.mem_cons_self c r), ih (fun x hx => h x (List.mem_cons_of_mem c hx))]

theorem val2 (n : Nat) (h : n < 100) :
    digitsVal [dc (n / 10 % 10), dc (n % 10)] = n := by
  unfold digitsVal digitVal
  simp only [List.foldl]
  rw [dc_toNat _ (Nat.mod_lt _ (by omega)), dc_toNat _ (Nat.mod_lt _ (by omega))]
  omega

theorem val4 (n : Nat) (h : n < 10000) :
    digitsVal [dc (n / 1000 % 10), dc (n / 100 % 10), dc (n / 10 % 10),
      dc (n % 10)] = n := by
  unfold digitsVal digitVal
  simp only [List.foldl]
  rw [dc_toNat _ (Nat.mod_lt _ (by omega)), dc_toNat _ (Nat.mod_lt _ (by omega)),
    dc_toNat _ (Nat.mod_lt _ (by omega)), dc_toNat _ (Nat.mod_lt _ (by omega))]
  omega

theorem daysInMonth_le (y m : Nat) : daysInMonth y m ≤ 31 := by
  unfold daysInMonth
  split
  · split <;> omega
  · split <;> omega

/-- Claim C9: for every real Gregorian date with year in `[1970, 2100]`,
`parse_date` applied to its strict zero-padded ISO rendering
`YYYY-MM-DD` succeeds and returns exactly that date. -/
theorem claim_C9 (y m d : Nat) (hy1 : 1970 ≤ y) (hy2 : y ≤ 2100)
    (hr : realDate y m d) :
    parse_date (isoRender y m d) = some ⟨y, m, d⟩ := by
  have hm1 : 1 ≤ m := hr.1
  have hm2 : m ≤ 12 := hr.2.1
  have hd1 : 1 ≤ d := hr.2.2.1
  have hd2 : d ≤ daysInMonth y m := hr.2.2.2
  have hdim := daysInMonth_le y m
  have hylt : y < 10000 := by omega
  have hmlt : m < 100 := by omega
  have hdlt : d < 100 := by omega
  unfold parse_date isoRender parse_date_l
  change parseDateCore (dateNorm [dc (y / 1000 % 10), dc (y / 100 % 10),
    dc (y / 10 % 10), dc (y % 10), '-', dc (m / 10 % 10), dc (m % 10), '-',
    dc (d / 10 % 10), dc (d % 10)]) = some ⟨y, m, d⟩
  set L : List Char := [dc (y / 1000 % 10), dc (y / 100 % 10), dc (y / 10 % 10),
    dc (y % 10), '-', dc (m / 10 % 10), dc (m % 10), '-', dc (d / 10 % 10),
    dc (d % 10)] with hL
  have hnorm : dateNorm L = L := by
    unfold dateNorm
    rw [pyStrip_noop, pyLower_noop]
    · intro c hc
      rw [hL] at hc
      simp only [List.mem_cons, List.not_mem_nil, or_false] at hc
      rcases hc with rfl | rfl | rfl | rfl | rfl | rfl | rfl | rfl | rfl | rfl <;>
        first
          | exact dc_lower _ (Nat.mod_lt _ (by omega))
          | decide
    · intro c hc
      rw [hL] at hc
      simp only [List.mem_cons, List.not_mem_nil, or_false] at hc
      rcases hc with rfl | rfl | rfl | rfl | rfl | rfl | rfl | rfl | rfl | rfl <;>
        first
          | exact dc_notSpace _ (Nat.mod_lt _ (by omega))
          | decide
  have hymd : strptimeYmd L = some ⟨y, m, d⟩ := by
    rw [hL]
    simp only [strptimeYmd]
    rw [if_pos]
    · rw [val4 y hylt, val2 m hmlt, val2 d hdlt]
      rw [if_pos ⟨hm1, hm2, hd1, by omega⟩]
      unfold mkDate?
      rw [if_pos ⟨by omega, by omega, hr⟩]
    · simp only [Bool.and_eq_true]
      repeat' apply And.intro
      all_goals
        first
          | exact dc_digit _ (Nat.mod_lt _ (by omega))
          | decide
  have hshape : isoShape L = true := by
    rw [hL]
    simp only [isoShape]
    simp only [Bool.and_eq_true]
    repeat' apply And.intro
    all_goals
      first
        | exact dc_digit _ (Nat.mod_lt _ (by omega))
        | decide
  have hiso : isoParse L = some ⟨y, m, d⟩ := by
    unfold isoParse
    rw [if_pos hshape, hymd]
  rw [hnorm]
  unfold parseDateCore
  simp only [hiso]

theorem claim_C9_witness : parse_date (isoRender 2025 11 28) = some ⟨2025, 11, 28⟩ :=
  claim_C9 2025 11 28 (by omega) (by omega) (by decide)

end VideoAnalytics
